import Mathlib

/-!
Verification model of the request-routing / response-normalization layer of
the chat Lambda (`src/lambda/chat_handler.py`).

Python values that flow through the handler (JSON-decoded bodies, the agent
result's `message` attribute, knowledge-base retrieval payloads) are modelled
by the inductive `PyVal`.  Python truthiness, `in` membership, subscripting,
`dict.get` and `str()` are modelled by `truthy`, `pyContains`,
`pySubscriptStr`, `pyGetD` and `pyStr`.  Fallible Python expressions return
`Except String α`, the error being the exception description; `try/except`
blocks become matches on that `Except`.
-/

/-- Model of a Python value as it appears in this handler: strings, ints,
booleans, `None`, lists and string-keyed dicts (JSON-shaped data). -/
inductive PyVal where
  | str (s : String)
  | int (n : Int)
  | bool (b : Bool)
  | noneV
  | list (l : List PyVal)
  | dict (d : List (String × PyVal))

/-- First-match lookup in a dict modelled as an association list
(Python dict keys are unique, so first-match agrees with dict lookup). -/
def lookupKey : List (String × PyVal) → String → Option PyVal
  | [], _ => Option.none
  | (k, v) :: rest, key => if k == key then some v else lookupKey rest key

/-- Python truthiness (`bool(v)`): empty strings, zero, `False`, `None`,
empty lists and empty dicts are falsy. -/
def truthy : PyVal → Bool
  | PyVal.str s => !(s == "")
  | PyVal.int n => !(n == 0)
  | PyVal.bool b => b
  | PyVal.noneV => false
  | PyVal.list l => !l.isEmpty
  | PyVal.dict d => !d.isEmpty

mutual

/-- `repr()` of a Python value (single quotes written via escapes). -/
def pyRepr : PyVal → String
  | PyVal.str s => "\x27" ++ s ++ "\x27"
  | PyVal.int n => toString n
  | PyVal.bool b => if b then "True" else "False"
  | PyVal.noneV => "None"
  | PyVal.list l => "[" ++ pyReprList l ++ "]"
  | PyVal.dict d => "\x7b" ++ pyReprDict d ++ "\x7d"

/-- `repr()` of the elements of a Python list, comma separated. -/
def pyReprList : List PyVal → String
  | [] => ""
  | [v] => pyRepr v
  | v :: rest => pyRepr v ++ ", " ++ pyReprList rest

/-- `repr()` of the entries of a Python dict, comma separated. -/
def pyReprDict : List (String × PyVal) → String
  | [] => ""
  | [(k, v)] => "\x27" ++ k ++ "\x27: " ++ pyRepr v
  | (k, v) :: rest => "\x27" ++ k ++ "\x27: " ++ pyRepr v ++ ", " ++ pyReprDict rest

end

/-- `str()` of a Python value: identity on strings, `repr`-like otherwise. -/
def pyStr : PyVal → String
  | PyVal.str s => s
  | v => pyRepr v

/-- Boolean prefix test on character lists (used for substring search). -/
def listIsPfx : List Char → List Char → Bool
  | [], _ => true
  | _ :: _, [] => false
  | a :: as, b :: bs => a == b && listIsPfx as bs

/-- Boolean substring test on character lists. -/
def listHasSub (needle : List Char) : List Char → Bool
  | [] => needle.isEmpty
  | b :: bs => listIsPfx needle (b :: bs) || listHasSub needle bs

/-- Python `needle in hay` for two strings (substring test). -/
def strIn (needle hay : String) : Bool :=
  listHasSub needle.data hay.data

/-- Python `v == "k"` for a string literal `k`: true only when `v` is exactly
that string (cross-type `==` is `False`, it does not raise). -/
def isStrLit (k : String) (v : PyVal) : Bool :=
  match v with
  | PyVal.str s => s == k
  | _ => false

/-- Python `"k" in v`: key membership for dicts, substring test for strings,
element equality for lists; a `TypeError` for non-iterable values. -/
def pyContains (v : PyVal) (k : String) : Except String Bool :=
  match v with
  | PyVal.dict d => Except.ok (lookupKey d k).isSome
  | PyVal.str s => Except.ok (strIn k s)
  | PyVal.list l => Except.ok (l.any (isStrLit k))
  | _ => Except.error "TypeError: argument is not iterable"

/-- Python `v["k"]`: dict lookup (`KeyError` when absent); a `TypeError`
for strings, lists and non-subscriptable values indexed by a string. -/
def pySubscriptStr (v : PyVal) (k : String) : Except String PyVal :=
  match v with
  | PyVal.dict d =>
    match lookupKey d k with
    | some x => Except.ok x
    | Option.none => Except.error ("KeyError: " ++ k)
  | PyVal.str _ => Except.error "TypeError: string indices must be integers"
  | PyVal.list _ => Except.error "TypeError: list indices must be integers"
  | _ => Except.error "TypeError: object is not subscriptable"

/-- Python `v.get(k, default)`: defined for dicts; an `AttributeError` on
values that have no `get` method. -/
def pyGetD (v : PyVal) (k : String) (dflt : PyVal) : Except String PyVal :=
  match v with
  | PyVal.dict d => Except.ok ((lookupKey d k).getD dflt)
  | _ => Except.error "AttributeError: object has no attribute get"

/-- Environment configuration of the handler module: `REGION_NAME`,
`MODEL_ID`, `KNOWLEDGE_BASE_ID`, `KNOWLEDGE_BASE_DATA_SOURCE_ID`. -/
structure Config where
  regionName : String
  modelId : String
  knowledgeBaseId : String
  knowledgeBaseDataSourceId : String

/-- The module defaults: `os.environ.get` fallbacks with no variables set. -/
def defaultConfig : Config :=
  ⟨"us-east-1", "anthropic.claude-3-sonnet-20240229-v1:0", "", ""⟩

/-- `bool(KNOWLEDGE_BASE_ID and KNOWLEDGE_BASE_DATA_SOURCE_ID)`. -/
def kbConfigured (cfg : Config) : Bool :=
  !(cfg.knowledgeBaseId == "") && !(cfg.knowledgeBaseDataSourceId == "")

/-- The result object returned by the strands agent call: its `message`
attribute (absent attribute modelled as `Option.none`) and its `str()`
conversion. -/
structure AgentResult where
  message : Option PyVal
  strRepr : String

/-- Text extraction of `_chat_with_claude` (lines 152-169 of
`chat_handler.py`): the nested `isinstance`/membership probing over
`result.message`, with `Except.error` for a raised exception (caught by the
enclosing `try`) and `Except.ok` for a returned string.  The final fallback
is `str(result)`. -/
def extractText (r : AgentResult) : Except String String :=
  match r.message with
  | some m =>
    if truthy m then
      match m with
      | PyVal.dict d =>
        match lookupKey d "content" with
        | some (PyVal.list (c0 :: _)) =>
          match pyContains c0 "text" with
          | Except.error e => Except.error e
          | Except.ok true =>
            match pySubscriptStr c0 "text" with
            | Except.error e => Except.error e
            | Except.ok t => Except.ok (pyStr t)
          | Except.ok false =>
            match pyContains c0 "type" with
            | Except.error e => Except.error e
            | Except.ok true =>
              match pySubscriptStr c0 "type" with
              | Except.error e => Except.error e
              | Except.ok ty =>
                if isStrLit "text" ty then
                  match pyGetD c0 "text" (PyVal.str "") with
                  | Except.error e => Except.error e
                  | Except.ok t => Except.ok (pyStr t)
                else Except.ok r.strRepr
            | Except.ok false => Except.ok r.strRepr
        | some (PyVal.list []) => Except.ok r.strRepr
        | some (PyVal.str s) => Except.ok s
        | some _ => Except.ok r.strRepr
        | Option.none => Except.ok r.strRepr
      | PyVal.str s => Except.ok s
      | _ => Except.ok r.strRepr
    else Except.ok r.strRepr
  | Option.none => Except.ok r.strRepr

/-- The fixed apology text of `_chat_with_claude`, interpolating the
exception description. -/
def apologyOf (d : String) : String :=
  "I apologize, but I encountered an error while processing your request: "
    ++ d ++ ". Please try again."

/-- Whether `message[:100]` succeeds: slicing is defined for strings and
lists; other values raise a `TypeError` inside the `try`. -/
def sliceable : PyVal → Bool
  | PyVal.str _ => true
  | PyVal.list _ => true
  | _ => false

/-- `_chat_with_claude` applied to an arbitrary Python value (as called from
`handle_chat` with `body.get("message", "")`).  `beh` is the behaviour of the
underlying `agent(message)` call: `Except.error d` models the call raising an
exception whose description is `d`, `Except.ok r` models it returning the
result object `r`.  Every failure is caught and rendered as the apology. -/
def chatWithClaudeVal (v : PyVal) (beh : Except String AgentResult) : String :=
  if sliceable v then
    match beh with
    | Except.error d => apologyOf d
    | Except.ok r =>
      match extractText r with
      | Except.ok s => s
      | Except.error e => apologyOf e
  else
    apologyOf "TypeError: message is not sliceable"

/-- `_chat_with_claude(message: str) -> str` at its declared signature. -/
def chat_with_claude (message : String) (beh : Except String AgentResult) : String :=
  chatWithClaudeVal (PyVal.str message) beh

/-- The four fixed CORS/content headers attached to every response. -/
def corsHeaders : List (String × String) :=
  [("Content-Type", "application/json"),
   ("Access-Control-Allow-Origin", "*"),
   ("Access-Control-Allow-Headers", "Content-Type"),
   ("Access-Control-Allow-Methods", "POST, GET, OPTIONS")]

/-- An HTTP-style Lambda response: status code, headers, and the Python
object passed to `json.dumps` as the body. -/
structure HttpResponse where
  statusCode : Nat
  headers : List (String × String)
  body : PyVal

/-- `context.get_remaining_time_in_millis() if context else None`:
the execution context modelled by its optional remaining-time value. -/
def tsOf : Option Int → PyVal
  | some n => PyVal.int n
  | Option.none => PyVal.noneV

/-- The body of an inbound event.  A string body is carried together with
its `json.loads` outcome (`Except.error` when the text is not valid JSON);
`nonStr` is a body that is already a decoded (non-string) Python value, and
`absentB` is a missing body (the code substitutes the literal string
`"{}"`, which parses to the empty dict). -/
inductive EventBody where
  | jsonStr (parse : Except Unit PyVal)
  | nonStr (v : PyVal)
  | absentB

/-- An inbound API-Gateway event, after the `event.get(..., "")` defaults:
HTTP method, path and body. -/
structure LambdaEvent where
  httpMethod : String
  path : String
  body : EventBody

/-- The 400 envelope for malformed JSON. -/
def invalidJsonResponse : HttpResponse :=
  ⟨400, corsHeaders,
    PyVal.dict [("error", PyVal.str "Bad request"),
                ("message", PyVal.str "Invalid JSON in request body")]⟩

/-- The 400 envelope for a missing/empty message. -/
def messageRequiredResponse : HttpResponse :=
  ⟨400, corsHeaders,
    PyVal.dict [("error", PyVal.str "Bad request"),
                ("message", PyVal.str "Message field is required")]⟩

/-- The body-processing tail of `handle_chat` (lines 256-296), shared by the
string-body and already-decoded-body paths after the `isinstance(body, str)`
join point.  The `Bool` component records whether `_chat_with_claude` (the
agent) was invoked on this path.  `body.get` on a non-dict raises an
`AttributeError`, which is not a `json.JSONDecodeError` and therefore
escapes `handle_chat`. -/
def processBody (cfg : Config) (b : PyVal) (beh : Except String AgentResult)
    (ctx : Option Int) : Except String HttpResponse × Bool :=
  match b with
  | PyVal.dict d =>
    let message := (lookupKey d "message").getD (PyVal.str "")
    let userId := (lookupKey d "user_id").getD (PyVal.str "anonymous")
    if truthy message then
      let ai := chatWithClaudeVal message beh
      (Except.ok ⟨200, corsHeaders,
        PyVal.dict [("response", PyVal.str ai),
                    ("user_id", userId),
                    ("model", PyVal.str cfg.modelId),
                    ("framework", PyVal.str "strands-agents"),
                    ("knowledge_base_enabled", PyVal.bool (kbConfigured cfg)),
                    ("timestamp", tsOf ctx)]⟩, true)
    else
      (Except.ok messageRequiredResponse, false)
  | _ => (Except.error "AttributeError: object has no attribute get", false)

/-- `handle_chat` (lines 246-311), instrumented with a `Bool` recording
whether the agent was invoked.  A string body is `json.loads`-decoded; a
decode failure is caught by the `except json.JSONDecodeError` clause and
yields the invalid-JSON 400.  Any other exception escapes as
`Except.error`. -/
def handleChatAux (cfg : Config) (e : LambdaEvent)
    (beh : Except String AgentResult) (ctx : Option Int) :
    Except String HttpResponse × Bool :=
  let parsed : Except Unit PyVal :=
    match e.body with
    | EventBody.jsonStr p => p
    | EventBody.nonStr v => Except.ok v
    | EventBody.absentB => Except.ok (PyVal.dict [])
  match parsed with
  | Except.error _ => (Except.ok invalidJsonResponse, false)
  | Except.ok b => processBody cfg b beh ctx

/-- `handle_chat`: the response (or escaping exception) of the instrumented
version. -/
def handle_chat (cfg : Config) (e : LambdaEvent)
    (beh : Except String AgentResult) (ctx : Option Int) :
    Except String HttpResponse :=
  (handleChatAux cfg e beh ctx).1

/-- `health_check` (lines 223-244). -/
def health_check (cfg : Config) (ctx : Option Int) : HttpResponse :=
  ⟨200, corsHeaders,
    PyVal.dict [("status", PyVal.str "healthy"),
                ("message", PyVal.str "Chat API is running with Claude integration via Strands and Harry Potter Knowledge Base"),
                ("model", PyVal.str cfg.modelId),
                ("region", PyVal.str cfg.regionName),
                ("framework", PyVal.str "strands-agents"),
                ("knowledge_base_configured", PyVal.bool (kbConfigured cfg)),
                ("timestamp", tsOf ctx)]⟩

/-- The 404 envelope of `lambda_handler` for an unrecognized route. -/
def notFoundResponse (path httpMethod : String) : HttpResponse :=
  ⟨404, corsHeaders,
    PyVal.dict [("error", PyVal.str "Endpoint not found"),
                ("message", PyVal.str ("Path " ++ path ++ " with method " ++ httpMethod ++ " is not supported"))]⟩

/-- The 500 envelope of `lambda_handler` for an uncaught handler failure. -/
def internalErrorResponse (d : String) : HttpResponse :=
  ⟨500, corsHeaders,
    PyVal.dict [("error", PyVal.str "Internal server error"),
                ("message", PyVal.str d)]⟩

/-- The dispatch inside `lambda_handler`'s `try` block (lines 180-205):
route on path and method; the only fallible branch is `handle_chat`. -/
def dispatchResult (cfg : Config) (e : LambdaEvent)
    (beh : Except String AgentResult) (ctx : Option Int) :
    Except String HttpResponse :=
  if e.path = "/health" ∧ e.httpMethod = "GET" then
    Except.ok (health_check cfg ctx)
  else if e.path = "/chat" ∧ e.httpMethod = "POST" then
    handle_chat cfg e beh ctx
  else
    Except.ok (notFoundResponse e.path e.httpMethod)

/-- `lambda_handler` (lines 176-221): the dispatch wrapped in the top-level
`except Exception` that converts any escaping failure into the 500
envelope.  The function is total: it always returns a response. -/
def lambda_handler (cfg : Config) (e : LambdaEvent)
    (beh : Except String AgentResult) (ctx : Option Int) : HttpResponse :=
  match dispatchResult cfg e beh ctx with
  | Except.ok r => r
  | Except.error ex => internalErrorResponse ex

/-- One formatted block of `search_knowledge_base` for a single retrieval
result (lines 107-116). -/
def formatOne (rr : PyVal) : Except String String := do
  let content ← pyGetD rr "content" (PyVal.dict [])
  let text ← pyGetD content "text" (PyVal.str "")
  let metadata ← pyGetD content "metadata" (PyVal.dict [])
  let source ← pyGetD metadata "source" (PyVal.str "Unknown source")
  let title ← pyGetD metadata "title" (PyVal.str "No title")
  pure ("Source: " ++ pyStr source ++ "\nTitle: " ++ pyStr title
        ++ "\nContent: " ++ pyStr text ++ "\n")

/-- The result-formatting loop of `search_knowledge_base` over
`response.get("retrievalResults", [])` (lines 106-116). -/
def formatKBResults (resp : PyVal) : Except String (List String) := do
  let rrs ← pyGetD resp "retrievalResults" (PyVal.list [])
  match rrs with
  | PyVal.list l => l.mapM formatOne
  | _ => Except.error "TypeError: retrievalResults is not iterable"

set_option linter.unusedVariables false in
/-- `search_knowledge_base` (lines 76-125).  `beh` is the behaviour of the
`client.retrieve` call (`Except.error` = the call raised, described by the
string; `Except.ok` = the response object).  The returned `Bool` records
whether a retrieval call was issued.  Every failure is caught by the
enclosing `try` and rendered as an error string with the fallback notice. -/
def search_knowledge_base (cfg : Config) (query : String)
    (beh : Except String PyVal) : String × Bool :=
  if cfg.knowledgeBaseId = "" ∨ cfg.knowledgeBaseDataSourceId = "" then
    ("Knowledge Base not configured. Please set KNOWLEDGE_BASE_ID and KNOWLEDGE_BASE_DATA_SOURCE_ID environment variables.", false)
  else
    match beh with
    | Except.error e =>
      ("Error searching the Knowledge Base: " ++ e
        ++ ". I can still help with general Harry Potter knowledge based on my training.", true)
    | Except.ok resp =>
      match formatKBResults resp with
      | Except.error e =>
        ("Error searching the Knowledge Base: " ++ e
          ++ ". I can still help with general Harry Potter knowledge based on my training.", true)
      | Except.ok results =>
        if results.isEmpty then
          ("No specific information found in the Knowledge Base for your query. I can still help with general Harry Potter knowledge based on my training.", true)
        else
          ("Found " ++ toString results.length
            ++ " relevant results for your query about Harry Potter:\n\n"
            ++ String.intercalate "\n---\n" results, true)

/-!
Lazy-singleton state of the module (`_boto_session`, `_bedrock_model`,
`_agent`, `_bedrock_agent_client`, lines 42-73 and 127-141).  Object identity
is modelled by a creation id drawn from a fresh-id counter; each construction
of a session, model or agent is recorded in an append-only event log so that
"constructed at most once, in order" is a statement about one run.
-/

/-- A construction event: which singleton was built, with its id. -/
inductive CEvent where
  | session (id : Nat)
  | model (id : Nat)
  | agentEv (id : Nat)

/-- The module-level mutable state: the four lazy globals, a fresh-id
counter, and the construction log. -/
structure GState where
  botoSession : Option Nat
  bedrockModel : Option (Nat × Nat)
  agentObj : Option (Nat × Nat)
  agentClient : Option Nat
  nextId : Nat
  log : List CEvent

/-- The state at process start: all four globals are `None`. -/
def initState : GState :=
  ⟨Option.none, Option.none, Option.none, Option.none, 0, []⟩

/-- `_get_bedrock_session`: return the cached session or construct one. -/
def get_bedrock_session (st : GState) : Nat × GState :=
  match st.botoSession with
  | some s => (s, st)
  | Option.none =>
    (st.nextId,
      ⟨some st.nextId, st.bedrockModel, st.agentObj, st.agentClient,
        st.nextId + 1, st.log ++ [CEvent.session st.nextId]⟩)

/-- `_get_bedrock_model`: return the cached model or construct one bound to
the (possibly freshly constructed) session. -/
def get_bedrock_model (st : GState) : Nat × GState :=
  match st.bedrockModel with
  | some m => (m.1, st)
  | Option.none =>
    let p := get_bedrock_session st
    (p.2.nextId,
      ⟨p.2.botoSession, some (p.2.nextId, p.1), p.2.agentObj, p.2.agentClient,
        p.2.nextId + 1, p.2.log ++ [CEvent.model p.2.nextId]⟩)

/-- `_get_agent`: return the cached agent or construct one bound to the
(possibly freshly constructed) model. -/
def get_agent (st : GState) : Nat × GState :=
  match st.agentObj with
  | some a => (a.1, st)
  | Option.none =>
    let p := get_bedrock_model st
    (p.2.nextId,
      ⟨p.2.botoSession, p.2.bedrockModel, some (p.2.nextId, p.1), p.2.agentClient,
        p.2.nextId + 1, p.2.log ++ [CEvent.agentEv p.2.nextId]⟩)

/-- `_get_bedrock_agent_client`: return the cached client or construct one
from the (possibly freshly constructed) session; clients are not part of the
claimed singleton triple, so no log event is recorded. -/
def get_bedrock_agent_client (st : GState) : Nat × GState :=
  match st.agentClient with
  | some c => (c, st)
  | Option.none =>
    let p := get_bedrock_session st
    (p.2.nextId,
      ⟨p.2.botoSession, p.2.bedrockModel, p.2.agentObj, some p.2.nextId,
        p.2.nextId + 1, p.2.log⟩)

/-- One observable use of the lazy getters (a chat invocation calls the
agent getter; the knowledge tool calls the client getter; the others can be
reached through them). -/
inductive Op where
  | session
  | model
  | agentOp
  | client

/-- Run one getter for its state effect. -/
def stepSt (st : GState) (op : Op) : GState :=
  match op with
  | Op.session => (get_bedrock_session st).2
  | Op.model => (get_bedrock_model st).2
  | Op.agentOp => (get_agent st).2
  | Op.client => (get_bedrock_agent_client st).2

/-- Run a sequence of getter uses from process start. -/
def runOps (ops : List Op) : GState :=
  ops.foldl stepSt initState

/-- Consistency of a state with the at-most-once discipline: the log holds
at most one construction of each kind, in the order session, model, agent;
the logged ids agree with the cached objects; the model is bound to the
session and the agent to the model. -/
def stateConsistent (st : GState) : Bool :=
  match st.botoSession, st.bedrockModel, st.agentObj, st.log with
  | Option.none, Option.none, Option.none, [] => true
  | some s, Option.none, Option.none, [CEvent.session s2] => s == s2
  | some s, some (m, ms), Option.none, [CEvent.session s2, CEvent.model m2] =>
    s == s2 && m == m2 && ms == s
  | some s, some (m, ms), some (a, am), [CEvent.session s2, CEvent.model m2, CEvent.agentEv a2] =>
    s == s2 && m == m2 && ms == s && a == a2 && am == m
  | _, _, _, _ => false

/-- `optStable old new`: once a cached object exists it is never replaced
(`new` equals `old` whenever `old` is set). -/
def optStable (old new : Option Nat) : Bool :=
  match old with
  | Option.none => true
  | some x => new == some x

/-- The id component of an optional (id, binding) pair. -/
def fstOf (o : Option (Nat × Nat)) : Option Nat :=
  o.map Prod.fst

/-!
Spec-side definitions.  `specRules` transcribes the five-step extraction
policy exactly as the specification words it (claim C2); it is compared with
`extractText`, which is transcribed from the source.
-/

/-- Modelled from the spec (refinement side of C2): the five extraction
rules, in the spec's order, applied to the `message` value; `fallbackStr`
stands for the rule-5 string conversion of the whole result. -/
def specRules (m : PyVal) (fallbackStr : String) : String :=
  match m with
  | PyVal.dict d =>
    match lookupKey d "content" with
    | some (PyVal.list (PyVal.dict d0 :: _)) =>
      match lookupKey d0 "text" with
      | some t => pyStr t
      | Option.none =>
        match lookupKey d0 "type" with
        | some ty => if isStrLit "text" ty then pyStr ((lookupKey d0 "text").getD (PyVal.str "")) else fallbackStr
        | Option.none => fallbackStr
    | some (PyVal.list _) => fallbackStr
    | some (PyVal.str s) => s
    | _ => fallbackStr
  | PyVal.str s => s
  | _ => fallbackStr

/-- Modelled from the spec: the extraction policy exactly as claim C2 states
it — the rules fire whenever the message field is present, with no
truthiness requirement. -/
def specExtract (r : AgentResult) : String :=
  match r.message with
  | some m => specRules m r.strRepr
  | Option.none => r.strRepr

/-- The amended extraction policy: the rules fire only when the message
field is truthy (in particular, an empty-string message falls through to
rule 5), matching the source's `if result.message:` guard. -/
def specExtractAmended (r : AgentResult) : String :=
  match r.message with
  | some m => if truthy m then specRules m r.strRepr else r.strRepr
  | Option.none => r.strRepr

/-- Well-shapedness for C2: when the message carries a non-empty content
list, its first element is a dict (the shape the spec's field talk is
about); any other result is unconstrained. -/
def wellShaped (r : AgentResult) : Bool :=
  match r.message with
  | some (PyVal.dict d) =>
    match lookupKey d "content" with
    | some (PyVal.list (c0 :: _)) =>
      match c0 with
      | PyVal.dict _ => true
      | _ => false
    | _ => true
  | _ => true

/-- Recognizer for the invalid-JSON 400 envelope (used to state that a code
path can never produce it). -/
def isInvalidJsonResp : Except String HttpResponse → Bool
  | Except.ok r =>
    (r.statusCode == 400) &&
      (match r.body with
       | PyVal.dict [("error", PyVal.str e), ("message", PyVal.str msg)] =>
         e == "Bad request" && msg == "Invalid JSON in request body"
       | _ => false)
  | Except.error _ => false

/-- `strContains s t`: `t` occurs literally inside `s`. -/
def strContains (s t : String) : Prop :=
  ∃ a b : String, s = a ++ t ++ b

/-- String append is concatenation of the underlying character lists. -/
theorem strAppendData (a b : String) : a ++ b = String.mk (a.data ++ b.data) := by
  cases a
  cases b
  rfl

/-- Associativity of string append. -/
theorem strAppendAssoc (a b c : String) : a ++ b ++ c = a ++ (b ++ c) := by
  cases a
  cases b
  cases c
  simp [strAppendData, List.append_assoc]

/-- A string built around `t` contains `t`. -/
theorem strContainsMid (a t b : String) : strContains (a ++ t ++ b) t :=
  ⟨a, b, rfl⟩

/-- The four reachable shapes of the lazy-singleton state: nothing built;
session built; session and model built (model bound to the session); all
three built (agent bound to the model).  The log mirrors the constructions
in order. -/
def InvP (st : GState) : Prop :=
  (st.botoSession = Option.none ∧ st.bedrockModel = Option.none ∧
    st.agentObj = Option.none ∧ st.log = []) ∨
  (∃ s, st.botoSession = some s ∧ st.bedrockModel = Option.none ∧
    st.agentObj = Option.none ∧ st.log = [CEvent.session s]) ∨
  (∃ s m, st.botoSession = some s ∧ st.bedrockModel = some (m, s) ∧
    st.agentObj = Option.none ∧ st.log = [CEvent.session s, CEvent.model m]) ∨
  (∃ s m a, st.botoSession = some s ∧ st.bedrockModel = some (m, s) ∧
    st.agentObj = some (a, m) ∧
    st.log = [CEvent.session s, CEvent.model m, CEvent.agentEv a])

theorem invStep (st : GState) (op : Op) (h : InvP st) : InvP (stepSt st op) := by
  rcases st with ⟨bs, bm, ag, cl, nid, lg⟩
  rcases h with ⟨h1, h2, h3, h4⟩ | ⟨s, h1, h2, h3, h4⟩ | ⟨s, m, h1, h2, h3, h4⟩ |
    ⟨s, m, a, h1, h2, h3, h4⟩ <;>
    simp only at h1 h2 h3 h4 <;> subst h1 <;> subst h2 <;> subst h3 <;> subst h4 <;>
    cases op <;> cases cl <;>
    simp [stepSt, get_bedrock_session, get_bedrock_model, get_agent,
      get_bedrock_agent_client, InvP]

theorem invRunAux (ops : List Op) : ∀ st : GState, InvP st →
    InvP (ops.foldl stepSt st) := by
  induction ops with
  | nil => intro st h; exact h
  | cons op rest ih => intro st h; exact ih _ (invStep st op h)

theorem invRun (ops : List Op) : InvP (runOps ops) :=
  invRunAux ops initState (Or.inl ⟨rfl, rfl, rfl, rfl⟩)

theorem invConsistent (st : GState) (h : InvP st) : stateConsistent st = true := by
  rcases st with ⟨bs, bm, ag, cl, nid, lg⟩
  rcases h with ⟨h1, h2, h3, h4⟩ | ⟨s, h1, h2, h3, h4⟩ | ⟨s, m, h1, h2, h3, h4⟩ |
    ⟨s, m, a, h1, h2, h3, h4⟩ <;>
    simp only at h1 h2 h3 h4 <;> subst h1 <;> subst h2 <;> subst h3 <;> subst h4 <;>
    simp [stateConsistent]

theorem stepMono (st : GState) (op : Op) :
    optStable st.botoSession (stepSt st op).botoSession = true ∧
    optStable (fstOf st.bedrockModel) (fstOf (stepSt st op).bedrockModel) = true ∧
    optStable (fstOf st.agentObj) (fstOf (stepSt st op).agentObj) = true := by
  rcases st with ⟨bs, bm, ag, cl, nid, lg⟩
  cases op <;> cases bs <;> cases bm <;> cases ag <;> cases cl <;>
    simp [stepSt, get_bedrock_session, get_bedrock_model, get_agent,
      get_bedrock_agent_client, optStable, fstOf]

theorem optStableRefl (o : Option Nat) : optStable o o = true := by
  cases o <;> simp [optStable]

theorem optStableTrans (a b c : Option Nat) (h1 : optStable a b = true)
    (h2 : optStable b c = true) : optStable a c = true := by
  cases a with
  | none => rfl
  | some x =>
    have hb : b = some x := by
      simp only [optStable] at h1
      exact eq_of_beq h1
    subst hb
    exact h2

theorem foldStable (extra : List Op) : ∀ st : GState,
    optStable st.botoSession ((extra.foldl stepSt st)).botoSession = true ∧
    optStable (fstOf st.bedrockModel) (fstOf ((extra.foldl stepSt st)).bedrockModel) = true ∧
    optStable (fstOf st.agentObj) (fstOf ((extra.foldl stepSt st)).agentObj) = true := by
  induction extra with
  | nil =>
    intro st
    exact ⟨optStableRefl _, optStableRefl _, optStableRefl _⟩
  | cons op rest ih =>
    intro st
    obtain ⟨m1, m2, m3⟩ := stepMono st op
    obtain ⟨f1, f2, f3⟩ := ih (stepSt st op)
    exact ⟨optStableTrans _ _ _ m1 f1, optStableTrans _ _ _ m2 f2,
      optStableTrans _ _ _ m3 f3⟩

theorem getReturnSession (st : GState) :
    optStable st.botoSession (some (get_bedrock_session st).1) = true := by
  rcases st with ⟨bs, bm, ag, cl, nid, lg⟩
  cases bs <;> simp [get_bedrock_session, optStable]

theorem getReturnModel (st : GState) :
    optStable (fstOf st.bedrockModel) (some (get_bedrock_model st).1) = true := by
  rcases st with ⟨bs, bm, ag, cl, nid, lg⟩
  cases bm <;> cases bs <;> simp [get_bedrock_model, get_bedrock_session, optStable, fstOf]

theorem getReturnAgent (st : GState) :
    optStable (fstOf st.agentObj) (some (get_agent st).1) = true := by
  rcases st with ⟨bs, bm, ag, cl, nid, lg⟩
  cases ag <;> cases bm <;> cases bs <;>
    simp [get_agent, get_bedrock_model, get_bedrock_session, optStable, fstOf]

/-!
Claim theorems.
-/

/-- Claim C1 (confirmed).  `_chat_with_claude` is total by construction —
for every message and every behaviour of the agent call it returns a string,
never an exception — and when the underlying call fails with description
`d`, the returned string is the fixed apology interpolating `d`: it contains
the apology text and the literal `d`. -/
theorem c1_converse_apology (m d : String) :
    chat_with_claude m (Except.error d) =
      "I apologize, but I encountered an error while processing your request: "
        ++ d ++ ". Please try again." ∧
    strContains (chat_with_claude m (Except.error d))
      "I apologize, but I encountered an error while processing your request:" ∧
    strContains (chat_with_claude m (Except.error d)) d := by
  refine ⟨rfl,
    ⟨"", " " ++ d ++ ". Please try again.", ?_⟩,
    ⟨"I apologize, but I encountered an error while processing your request: ",
      ". Please try again.", ?_⟩⟩ <;>
  · show apologyOf d = _
    cases d with
    | mk l => simp [apologyOf, strAppendData]

/-- Claim C5 (confirmed).  A string request body that is not valid JSON
makes `handle_chat` return the exact 400 invalid-JSON envelope (the
`json.JSONDecodeError` handler), for every configuration, route, agent
behaviour and context. -/
theorem c5_invalid_json (cfg : Config) (mth p : String)
    (beh : Except String AgentResult) (ctx : Option Int) :
    handle_chat cfg ⟨mth, p, EventBody.jsonStr (Except.error ())⟩ beh ctx =
      Except.ok invalidJsonResponse := rfl

/-- Claim C6 (confirmed).  Any (method, path) pair other than (GET, /health)
and (POST, /chat) yields the 404 envelope whose message interpolates — and
therefore contains — the literal requested path and method. -/
theorem c6_not_found (cfg : Config) (e : LambdaEvent)
    (beh : Except String AgentResult) (ctx : Option Int)
    (h1 : ¬(e.path = "/health" ∧ e.httpMethod = "GET"))
    (h2 : ¬(e.path = "/chat" ∧ e.httpMethod = "POST")) :
    lambda_handler cfg e beh ctx = notFoundResponse e.path e.httpMethod ∧
    strContains ("Path " ++ e.path ++ " with method " ++ e.httpMethod
      ++ " is not supported") e.path ∧
    strContains ("Path " ++ e.path ++ " with method " ++ e.httpMethod
      ++ " is not supported") e.httpMethod := by
  refine ⟨?_, ?_, ?_⟩
  · unfold lambda_handler dispatchResult
    rw [if_neg h1, if_neg h2]
  · refine ⟨"Path ", " with method " ++ e.httpMethod ++ " is not supported", ?_⟩
    cases hp : e.path with
    | mk l1 =>
      cases hm : e.httpMethod with
      | mk l2 => simp [strAppendData]
  · refine ⟨"Path " ++ e.path ++ " with method ", " is not supported", ?_⟩
    cases hp : e.path with
    | mk l1 =>
      cases hm : e.httpMethod with
      | mk l2 => simp [strAppendData]

/-- Witness for C6 at (PUT, /x). -/
theorem c6_not_found_witness :
    lambda_handler defaultConfig ⟨"PUT", "/x", EventBody.absentB⟩
        (Except.error "boom") Option.none = notFoundResponse "/x" "PUT" ∧
    strContains ("Path " ++ "/x" ++ " with method " ++ "PUT"
      ++ " is not supported") "/x" ∧
    strContains ("Path " ++ "/x" ++ " with method " ++ "PUT"
      ++ " is not supported") "PUT" :=
  c6_not_found defaultConfig ⟨"PUT", "/x", EventBody.absentB⟩
    (Except.error "boom") Option.none (by decide) (by decide)

/-- Claim C7 (confirmed).  `lambda_handler` is total by construction (it
never raises), and whenever the dispatched handler raises an exception with
description `ex`, the result is the 500 internal-error envelope embedding
`ex`. -/
theorem c7_router_failure_boundary (cfg : Config) (e : LambdaEvent)
    (beh : Except String AgentResult) (ctx : Option Int) (ex : String)
    (h : dispatchResult cfg e beh ctx = Except.error ex) :
    lambda_handler cfg e beh ctx = internalErrorResponse ex := by
  unfold lambda_handler
  rw [h]

/-- A chat event whose body decodes to a JSON array: `body.get` raises an
`AttributeError` that escapes `handle_chat`. -/
def eventAttrError : LambdaEvent :=
  ⟨"POST", "/chat", EventBody.jsonStr (Except.ok (PyVal.list []))⟩

/-- Witness for C7: a chat request with an array body makes the handler
raise, and the router converts it into the 500 envelope. -/
theorem c7_router_failure_boundary_witness :
    dispatchResult defaultConfig eventAttrError (Except.error "boom") Option.none =
      Except.error "AttributeError: object has no attribute get" ∧
    lambda_handler defaultConfig eventAttrError (Except.error "boom") Option.none =
      internalErrorResponse "AttributeError: object has no attribute get" :=
  ⟨rfl, c7_router_failure_boundary defaultConfig eventAttrError
    (Except.error "boom") Option.none _ rfl⟩

/-- Claim C8 (confirmed).  With either knowledge-base identifier empty,
`search_knowledge_base` returns the fixed not-configured string and issues
no retrieval call (the second component records whether `client.retrieve`
was invoked), for every query and retrieval behaviour. -/
theorem c8_kb_not_configured (cfg : Config) (q : String)
    (beh : Except String PyVal)
    (h : cfg.knowledgeBaseId = "" ∨ cfg.knowledgeBaseDataSourceId = "") :
    search_knowledge_base cfg q beh =
      ("Knowledge Base not configured. Please set KNOWLEDGE_BASE_ID and KNOWLEDGE_BASE_DATA_SOURCE_ID environment variables.", false) := by
  unfold search_knowledge_base
  rw [if_pos h]

/-- Witness for C8 with the default (unset) configuration. -/
theorem c8_kb_not_configured_witness :
    (defaultConfig.knowledgeBaseId = "" ∨
      defaultConfig.knowledgeBaseDataSourceId = "") ∧
    search_knowledge_base defaultConfig "Who is Dobby?" (Except.error "boom") =
      ("Knowledge Base not configured. Please set KNOWLEDGE_BASE_ID and KNOWLEDGE_BASE_DATA_SOURCE_ID environment variables.", false) :=
  ⟨Or.inl rfl, c8_kb_not_configured defaultConfig "Who is Dobby?"
    (Except.error "boom") (Or.inl rfl)⟩

/-- Claim C4 counterexample (closed).  A request body that parses as JSON —
the array `[]`, in which the message field is absent — does not produce the
400 "Message field is required" response: `body.get` raises an
`AttributeError` that escapes `handle_chat` (and would become a 500 at the
router), and the agent is not called. -/
theorem c4_counterexample :
    handleChatAux defaultConfig
        ⟨"POST", "/chat", EventBody.jsonStr (Except.ok (PyVal.list []))⟩
        (Except.error "boom") Option.none =
      (Except.error "AttributeError: object has no attribute get", false) := rfl

/-- Claim C4 (amended): for every request body that parses as a JSON
object (mapping) in which the message field is absent or the empty string,
`handle_chat` returns the exact 400 "Message field is required" envelope
without calling the agent. -/
theorem c4_message_required (cfg : Config) (mth p : String)
    (d : List (String × PyVal)) (beh : Except String AgentResult)
    (ctx : Option Int)
    (h : lookupKey d "message" = Option.none ∨
      lookupKey d "message" = some (PyVal.str "")) :
    handleChatAux cfg ⟨mth, p, EventBody.jsonStr (Except.ok (PyVal.dict d))⟩ beh ctx =
      (Except.ok messageRequiredResponse, false) := by
  rcases h with h | h <;> simp [handleChatAux, processBody, h, truthy]

/-- Witness for C4 (amended) at the empty JSON object. -/
theorem c4_message_required_witness :
    (lookupKey ([] : List (String × PyVal)) "message" = Option.none ∨
      lookupKey ([] : List (String × PyVal)) "message" = some (PyVal.str "")) ∧
    handleChatAux defaultConfig
        ⟨"POST", "/chat", EventBody.jsonStr (Except.ok (PyVal.dict []))⟩
        (Except.error "boom") Option.none =
      (Except.ok messageRequiredResponse, false) :=
  ⟨Or.inl rfl, c4_message_required defaultConfig "POST" "/chat" []
    (Except.error "boom") Option.none (Or.inl rfl)⟩

/-- An agent result whose message content is the empty string: extraction
returns the empty string. -/
def emptyTextResult : AgentResult :=
  ⟨some (PyVal.dict [("content", PyVal.str "")]), "RES"⟩

/-- Claim C3 counterexample (closed).  A valid request (non-empty message)
whose agent result carries an empty content string gets a 200 whose
`response` field is the empty string — the response string is not always
non-empty. -/
theorem c3_counterexample :
    handle_chat defaultConfig
        ⟨"POST", "/chat",
          EventBody.jsonStr (Except.ok (PyVal.dict [("message", PyVal.str "hi")]))⟩
        (Except.ok emptyTextResult) Option.none =
      Except.ok ⟨200, corsHeaders,
        PyVal.dict [("response", PyVal.str ""),
                    ("user_id", PyVal.str "anonymous"),
                    ("model", PyVal.str "anthropic.claude-3-sonnet-20240229-v1:0"),
                    ("framework", PyVal.str "strands-agents"),
                    ("knowledge_base_enabled", PyVal.bool false),
                    ("timestamp", PyVal.noneV)]⟩ := rfl

/-- Claim C3 (amended): for every request whose body parses as a JSON object
with a non-empty message string, and every agent behaviour, `handle_chat`
returns status 200 with a `response` string (the extracted agent text,
possibly empty), echoes the supplied `user_id` unchanged (defaulting to
"anonymous" when absent), reports the configured model identifier, and a
boolean `knowledge_base_enabled` field. -/
theorem c3_chat_success (cfg : Config) (mth p : String)
    (d : List (String × PyVal)) (beh : Except String AgentResult)
    (ctx : Option Int) (s : String)
    (h1 : lookupKey d "message" = some (PyVal.str s)) (h2 : s ≠ "") :
    handle_chat cfg ⟨mth, p, EventBody.jsonStr (Except.ok (PyVal.dict d))⟩ beh ctx =
      Except.ok ⟨200, corsHeaders,
        PyVal.dict [("response", PyVal.str (chat_with_claude s beh)),
                    ("user_id", (lookupKey d "user_id").getD (PyVal.str "anonymous")),
                    ("model", PyVal.str cfg.modelId),
                    ("framework", PyVal.str "strands-agents"),
                    ("knowledge_base_enabled", PyVal.bool (kbConfigured cfg)),
                    ("timestamp", tsOf ctx)]⟩ := by
  simp [handle_chat, handleChatAux, processBody, h1, truthy, h2, chat_with_claude]

/-- Witness for C3 (amended) at a concrete request with an explicit
user id. -/
theorem c3_chat_success_witness :
    lookupKey [("message", PyVal.str "ping"), ("user_id", PyVal.str "u1")]
      "message" = some (PyVal.str "ping") ∧
    ("ping" ≠ "") ∧
    handle_chat defaultConfig
        ⟨"POST", "/chat",
          EventBody.jsonStr (Except.ok (PyVal.dict
            [("message", PyVal.str "ping"), ("user_id", PyVal.str "u1")]))⟩
        (Except.error "kaput") (some 3) =
      Except.ok ⟨200, corsHeaders,
        PyVal.dict [("response", PyVal.str (chat_with_claude "ping" (Except.error "kaput"))),
                    ("user_id",
                      (lookupKey [("message", PyVal.str "ping"), ("user_id", PyVal.str "u1")]
                        "user_id").getD (PyVal.str "anonymous")),
                    ("model", PyVal.str defaultConfig.modelId),
                    ("framework", PyVal.str "strands-agents"),
                    ("knowledge_base_enabled", PyVal.bool (kbConfigured defaultConfig)),
                    ("timestamp", tsOf (some 3))]⟩ :=
  ⟨rfl, by decide, c3_chat_success defaultConfig "POST" "/chat"
    [("message", PyVal.str "ping"), ("user_id", PyVal.str "u1")]
    (Except.error "kaput") (some 3) "ping" rfl (by decide)⟩

/-- Claim C10 (confirmed).  An event body that is already a decoded
(non-string) Python value skips `json.loads` and flows straight into the
shared body-processing tail; consequently no non-string body can ever
produce the 400 invalid-JSON envelope (that envelope is reachable only from
a `json.JSONDecodeError`, which only `json.loads` on a string body can
raise). -/
theorem c10_nonstring_body (cfg : Config) (mth p : String) (v : PyVal)
    (beh : Except String AgentResult) (ctx : Option Int) :
    handleChatAux cfg ⟨mth, p, EventBody.nonStr v⟩ beh ctx =
      processBody cfg v beh ctx ∧
    isInvalidJsonResp (handle_chat cfg ⟨mth, p, EventBody.nonStr v⟩ beh ctx) = false := by
  refine ⟨rfl, ?_⟩
  show isInvalidJsonResp (processBody cfg v beh ctx).1 = false
  cases v with
  | dict d =>
    by_cases ht : truthy ((lookupKey d "message").getD (PyVal.str "")) = true <;>
      simp [processBody, isInvalidJsonResp, messageRequiredResponse, ht]
  | str s => rfl
  | int n => rfl
  | bool b => rfl
  | noneV => rfl
  | list l => rfl

/-- An agent result whose message is the empty string (a falsy value) and
whose string conversion is a distinct placeholder. -/
def emptyMessageResult : AgentResult :=
  ⟨some (PyVal.str ""), "<AgentResult object>"⟩

/-- Claim C2 counterexample (closed).  On a result whose message is the
empty string, the code returns `str(result)` (the `if result.message:`
truthiness guard skips every branch), while the claimed priority order
(rule 4: a plain-string message is returned) would return the empty
string. -/
theorem c2_counterexample :
    extractText emptyMessageResult = Except.ok "<AgentResult object>" ∧
    specExtract emptyMessageResult = "" ∧
    ("<AgentResult object>" == "") = false :=
  ⟨rfl, rfl, by decide⟩

/-- Claim C2 (amended): the extraction follows the claimed priority order
with rules (1)-(4) applying only when the message field is truthy (in
particular, an empty-string message falls through to rule 5), stated for
results whose content list, when non-empty, starts with a dict (the shape
the spec's "field" talk presumes; other first elements trigger Python
membership tests on non-dict values, outside the claimed policy). -/
theorem c2_extraction_policy (r : AgentResult) (h : wellShaped r = true) :
    extractText r = Except.ok (specExtractAmended r) := by
  obtain ⟨msg, rep⟩ := r
  cases msg with
  | none => rfl
  | some m =>
    cases m with
    | dict d =>
      cases htr : truthy (PyVal.dict d) with
      | false => simp [extractText, specExtractAmended, htr]
      | true =>
        cases hc : lookupKey d "content" with
        | none => simp [extractText, specExtractAmended, specRules, htr, hc]
        | some content =>
          cases content with
          | list l =>
            cases l with
            | nil => simp [extractText, specExtractAmended, specRules, htr, hc]
            | cons c0 rest =>
              cases c0 with
              | dict d0 =>
                cases ht : lookupKey d0 "text" with
                | some t =>
                  simp [extractText, specExtractAmended, specRules, htr, hc, ht,
                    pyContains, pySubscriptStr]
                | none =>
                  cases hty : lookupKey d0 "type" with
                  | none =>
                    simp [extractText, specExtractAmended, specRules, htr, hc, ht,
                      hty, pyContains, pySubscriptStr]
                  | some ty =>
                    cases hb : isStrLit "text" ty with
                    | false =>
                      simp [extractText, specExtractAmended, specRules, htr, hc,
                        ht, hty, hb, pyContains, pySubscriptStr]
                    | true =>
                      simp [extractText, specExtractAmended, specRules, htr, hc,
                        ht, hty, hb, pyContains, pySubscriptStr, pyGetD]
              | str s => simp [wellShaped, hc] at h
              | int n => simp [wellShaped, hc] at h
              | bool b => simp [wellShaped, hc] at h
              | noneV => simp [wellShaped, hc] at h
              | list l2 => simp [wellShaped, hc] at h
          | str s => simp [extractText, specExtractAmended, specRules, htr, hc]
          | int n => simp [extractText, specExtractAmended, specRules, htr, hc]
          | bool b => simp [extractText, specExtractAmended, specRules, htr, hc]
          | noneV => simp [extractText, specExtractAmended, specRules, htr, hc]
          | dict d2 => simp [extractText, specExtractAmended, specRules, htr, hc]
    | str s =>
      cases htr : truthy (PyVal.str s) <;>
        simp [extractText, specExtractAmended, specRules, htr]
    | int n =>
      cases htr : truthy (PyVal.int n) <;>
        simp [extractText, specExtractAmended, specRules, htr]
    | bool b =>
      cases htr : truthy (PyVal.bool b) <;>
        simp [extractText, specExtractAmended, specRules, htr]
    | noneV =>
      cases htr : truthy PyVal.noneV <;>
        simp [extractText, specExtractAmended, specRules, htr]
    | list l =>
      cases htr : truthy (PyVal.list l) <;>
        simp [extractText, specExtractAmended, specRules, htr]

/-- A well-shaped agent result with a structured text content element. -/
def sampleTextResult : AgentResult :=
  ⟨some (PyVal.dict [("content", PyVal.list [PyVal.dict [("text", PyVal.str "Hello")]])]),
    "RES2"⟩

/-- Witness for C2 (amended) on a structured text result. -/
theorem c2_extraction_policy_witness :
    wellShaped sampleTextResult = true ∧
    extractText sampleTextResult = Except.ok (specExtractAmended sampleTextResult) :=
  ⟨rfl, c2_extraction_policy sampleTextResult rfl⟩

/-- Claim C9 (confirmed).  Across any sequence of getter uses from process
start: the final state is consistent (the construction log holds at most one
session, one model and one agent construction, in that order, with the
model bound to the session and the agent to the model); any already-built
object survives any further sequence unchanged (memoized reuse); and each
getter returns the cached object whenever one exists. -/
theorem c9_lazy_singletons (ops extra : List Op) :
    stateConsistent (runOps ops) = true ∧
    optStable (runOps ops).botoSession (runOps (ops ++ extra)).botoSession = true ∧
    optStable (fstOf (runOps ops).bedrockModel)
      (fstOf (runOps (ops ++ extra)).bedrockModel) = true ∧
    optStable (fstOf (runOps ops).agentObj)
      (fstOf (runOps (ops ++ extra)).agentObj) = true ∧
    optStable (runOps ops).botoSession
      (some (get_bedrock_session (runOps ops)).1) = true ∧
    optStable (fstOf (runOps ops).bedrockModel)
      (some (get_bedrock_model (runOps ops)).1) = true ∧
    optStable (fstOf (runOps ops).agentObj)
      (some (get_agent (runOps ops)).1) = true := by
  have hrun : runOps (ops ++ extra) = extra.foldl stepSt (runOps ops) := by
    simp [runOps, List.foldl_append]
  obtain ⟨f1, f2, f3⟩ := foldStable extra (runOps ops)
  exact ⟨invConsistent _ (invRun ops),
    by rw [hrun]; exact f1, by rw [hrun]; exact f2, by rw [hrun]; exact f3,
    getReturnSession _, getReturnModel _, getReturnAgent _⟩
